import Mathlib

/-!
Shallow embedding of the frame-by-frame scroll player (src/frameByFrame.ts).

Numbers that the TypeScript source manipulates are modelled as exact
rationals; Math.floor, Math.round and Math.min become the corresponding
Int.floor, round and min on the rationals.  Asynchronous results are
modelled with Except: a settled promise is either ok (resolved) or
error (rejected).  Promise.all over a list of settled outcomes rejects
with the first rejection and resolves with the list of values otherwise.

The two per-tier caches (loadedImages and loadedHighResImages, lines
70-71) are maps from frame index to an image handle; image handles and
transport errors are represented by natural numbers, since the claims
never inspect pixel data.
-/

namespace FrameByFrame

/-- An opaque handle to a decoded image (an HTMLImageElement in the source). -/
abbrev ImageHandle := ℕ

/-- An opaque transport / decode error carried by a rejected fetch. -/
abbrev FetchError := ℕ

/-- Semantics of Promise.all over a list of settled member outcomes:
it rejects with the first rejection and otherwise resolves with the
list of resolved values. -/
def promiseAll {ε α : Type} : List (Except ε α) → Except ε (List α)
  | [] => Except.ok []
  | Except.error e :: _ => Except.error e
  | Except.ok a :: xs =>
    match promiseAll xs with
    | Except.error e => Except.error e
    | Except.ok l => Except.ok (a :: l)

/-- The JavaScript counting loop "for (let i = start; i < bound; i++)":
the list of loop-counter values it iterates over.  The bound is a
rational because the source compares the integer counter against
fractional bounds such as imagesPath.length * preLoadingPercentage
(line 284) and the forward-loading upper bound (line 311). -/
def forUpTo (bound : ℚ) (i : ℕ) : List ℕ :=
  if h : (i : ℚ) < bound then i :: forUpTo bound (i + 1) else []
termination_by (⌈bound⌉ - (i : ℤ)).toNat
decreasing_by
  have hi : (i : ℤ) < ⌈bound⌉ := by
    rw [Int.lt_ceil]
    push_cast
    exact h
  omega

/-- State of the image caches (fields loadedImages and
loadedHighResImages of the class, lines 70-71) together with a count of
the transport fetches issued so far (each assignment img.src = ... on
line 263 starts one network request for a freshly created img element). -/
structure CacheState where
  loadedImages : ℕ → Option ImageHandle
  loadedHighResImages : ℕ → Option ImageHandle
  transportFetches : ℕ

/-- The synchronous outcome of starting loadImage (lines 244-266): it
either resolves at once with a cached image, rejects at once (the
rejectAlreadyLoaded branch, line 250), or creates a fresh img element
and issues a new transport fetch that is still pending.  The payload of
fetching numbers the transport request that was issued. -/
inductive LoadStart
  | resolved (img : ImageHandle)
  | rejected
  | fetching (requestId : ℕ)
deriving DecidableEq

/-- Embedding of the synchronous phase of loadImage (lines 244-266): the
cache for the requested tier is consulted; on a hit the promise settles
immediately (reject when rejectAlreadyLoaded, otherwise resolve with the
cached handle); on a miss a new img element is created and its src is
set, issuing one more transport fetch.  Nothing records the pending
request in any registry, faithfully to the source. -/
def loadImageStart (s : CacheState) (index : ℕ)
    (highRes rejectAlreadyLoaded : Bool) : LoadStart × CacheState :=
  let loadedImages := if highRes then s.loadedHighResImages else s.loadedImages
  match loadedImages index with
  | some loadedImage =>
      (if rejectAlreadyLoaded then LoadStart.rejected
       else LoadStart.resolved loadedImage, s)
  | none =>
      (LoadStart.fetching s.transportFetches,
       { s with transportFetches := s.transportFetches + 1 })

/-- Embedding of getRequestedImageIndex (lines 292-303).  scrollTop is
document.documentElement.scrollTop, numImages is imagesPath.length.
The source first clamps with Math.min against numImages - 1 and then
re-clamps with an if statement against the same bound. -/
def getRequestedImageIndex (scrollTop windowHeight pxPerImg : ℚ)
    (numImages : ℕ) : ℤ :=
  let top : ℚ := scrollTop + windowHeight
  let requestedImageIndex : ℤ :=
    min ((numImages : ℤ) - 1) ⌊top / pxPerImg - windowHeight / pxPerImg⌋
  if (numImages : ℤ) - 1 ≤ requestedImageIndex then (numImages : ℤ) - 1
  else requestedImageIndex

/-- The simplified resolver that claim C10 asserts the source computes:
min(N - 1, floor(scrollOffset / pitch)).  Stated from the words of the
claim, to be compared against getRequestedImageIndex. -/
def getRequestedImageIndexSpec (scrollTop pxPerImg : ℚ) (numImages : ℕ) : ℤ :=
  min ((numImages : ℤ) - 1) ⌊scrollTop / pxPerImg⌋

/-- The source rectangle computed by drawOnCanvas and handed to
drawImage (line 238); the destination rectangle is the full canvas. -/
structure SourceRect where
  sourceX : ℚ
  sourceY : ℚ
  sourceWidth : ℚ
  sourceHeight : ℚ
deriving DecidableEq

/-- Embedding of the cover-fit computation of drawOnCanvas (lines
201-241).  Note line 216 of the source: resizedImageHeight is computed
as imageWidth * lowestRatio (not imageHeight * lowestRatio); the
embedding reproduces this.  The two sequential if statements on lines
223-224 both assign adjustedRatio, so the second one wins whenever its
condition holds. -/
def drawOnCanvas (canvasWidth canvasHeight imageWidth imageHeight : ℚ) :
    SourceRect :=
  let offsetX : ℚ := 1/2
  let offsetY : ℚ := 1/2
  let lowestRatio : ℚ :=
    min (canvasWidth / imageWidth) (canvasHeight / imageHeight)
  let resizedImageWidth : ℚ := imageWidth * lowestRatio
  let resizedImageHeight : ℚ := imageWidth * lowestRatio
  let adjustedRatio : ℚ :=
    if (round resizedImageHeight : ℚ) < canvasHeight then
      canvasHeight / resizedImageHeight
    else if (round resizedImageWidth : ℚ) < canvasWidth then
      canvasWidth / resizedImageWidth
    else 1
  let resizedImageWidthAdj := resizedImageWidth * adjustedRatio
  let resizedImageHeightAdj := resizedImageHeight * adjustedRatio
  let sourceWidth := imageWidth / (resizedImageWidthAdj / canvasWidth)
  let sourceHeight := imageHeight / (resizedImageHeightAdj / canvasHeight)
  let sourceX := (imageWidth - sourceWidth) * offsetX
  let sourceY := (imageHeight - sourceHeight) * offsetY
  let sourceXc := if sourceX < 0 then 0 else sourceX
  let sourceYc := if sourceY < 0 then 0 else sourceY
  let sourceWidthC := if imageWidth < sourceWidth then imageWidth else sourceWidth
  let sourceHeightC := if imageHeight < sourceHeight then imageHeight else sourceHeight
  ⟨sourceXc, sourceYc, sourceWidthC, sourceHeightC⟩

/-- The indices the preloader (lines 281-289) passes to loadImage: the
loop "for (let i = 0; i < imagesPath.length * preLoadingPercentage; i++)". -/
def preloadIndices (numImages : ℕ) (preLoadingPercentage : ℚ) : List ℕ :=
  forUpTo ((numImages : ℚ) * preLoadingPercentage) 0

/-- Given the settled outcome of each low-tier fetch, the settled
outcome of the preloader promise, which is Promise.all over the preload
batch (line 288). -/
def preloaderResult (numImages : ℕ) (preLoadingPercentage : ℚ)
    (outcome : ℕ → Except FetchError ImageHandle) :
    Except FetchError (List ImageHandle) :=
  promiseAll ((preloadIndices numImages preLoadingPercentage).map outcome)

/-- Whether options.onComplete fires.  In the constructor (lines
104-129) this.options.onComplete() runs inside
this.setTheaterSize(true).then(...), which itself runs inside
this.preloader().then(...); setTheaterSize returns
this.drawOnScreenImage(highRes) (line 166), whose promise is the
loadImage of the high-resolution image for the currently requested
index (line 190).  Neither then has a rejection handler, so onComplete
fires exactly when the preloader promise resolves and the initial
high-resolution display load (whose settled outcome is the last
argument; it only starts once the preloader has resolved) then also
resolves. -/
def onCompleteFired (numImages : ℕ) (preLoadingPercentage : ℚ)
    (outcome : ℕ → Except FetchError ImageHandle)
    (firstDisplayLoad : Except FetchError ImageHandle) : Bool :=
  match preloaderResult numImages preLoadingPercentage outcome with
  | Except.error _ => false
  | Except.ok _ =>
    match firstDisplayLoad with
    | Except.error _ => false
    | Except.ok _ => true

/-- Embedding of getForwardLoadingUpperBound (lines 320-323). -/
def getForwardLoadingUpperBound (numImages : ℕ)
    (forwardLoadingThreshold : ℚ) (requestedImageIndex : ℕ) : ℚ :=
  min ((requestedImageIndex : ℚ) + (numImages : ℚ) * forwardLoadingThreshold)
    (numImages : ℚ)

/-- The indices a forward look-ahead pass hands to loadImage (lines
309-313): the loop "for (let i = requestedImageIndex + 1; i < ub; i++)". -/
def forwardLoadIndices (numImages : ℕ) (forwardLoadingThreshold : ℚ)
    (requestedImageIndex : ℕ) : List ℕ :=
  forUpTo
    (getForwardLoadingUpperBound numImages forwardLoadingThreshold
      requestedImageIndex)
    (requestedImageIndex + 1)

/-- One forward look-ahead chain, after its member fetches have all
settled with the given outcomes (forwardLoad, lines 306-318): the first
component is the settled outcome of this.forwardLoading =
Promise.all(promises) (line 315); the second is the value of the
isFowardLoading flag once that promise has settled — the flag is set to
true on line 316 and the continuation .then(() => this.isFowardLoading =
false) on line 317 has no rejection handler, so the flag is reset only
when the chain resolves. -/
def forwardLoadRun (numImages : ℕ) (forwardLoadingThreshold : ℚ)
    (requestedImageIndex : ℕ)
    (outcome : ℕ → Except FetchError ImageHandle) :
    Except FetchError (List ImageHandle) × Bool :=
  let forwardLoading :=
    promiseAll
      ((forwardLoadIndices numImages forwardLoadingThreshold
          requestedImageIndex).map outcome)
  (forwardLoading,
   match forwardLoading with
   | Except.ok _ => false
   | Except.error _ => true)

/-- How one tick of the background interval loader ends (the async
callback of setIntervalLoad, lines 137-155). -/
inductive IntervalOutcome
  | stopped (latestIntervalLoadedImage : ℕ) (numberOfImagesToLoad : ℕ)
  | thrown (index : ℕ)
deriving DecidableEq

/-- Embedding of the while loop of one interval tick (lines 147-153).
cached tells whether an index is already in the low-tier cache when the
loop first reaches it, fetchOk whether its transport fetch would
succeed.  Each iteration increments latestIntervalLoadedImage and awaits
loadImage(latest, false, true): on a cache hit that call rejects
(AlreadyLoaded) and on a transport failure it also rejects; either way
the rejection handler on line 151 throws the string
"Unable to load " + index, which aborts the loop (outcome thrown).  On
success the quota numberOfImagesToLoad is decremented and the loop
continues.  Indices are visited in strictly increasing order, so a fixed
cached predicate is faithful within one tick. -/
def intervalTick (numberOfImages : ℕ) (cached fetchOk : ℕ → Bool)
    (numberOfImagesToLoad latestIntervalLoadedImage : ℕ) : IntervalOutcome :=
  if 0 < numberOfImagesToLoad ∧
      latestIntervalLoadedImage < numberOfImages - 1 then
    let latest := latestIntervalLoadedImage + 1
    if cached latest then IntervalOutcome.thrown latest
    else if fetchOk latest then
      intervalTick numberOfImages cached fetchOk
        (numberOfImagesToLoad - 1) latest
    else IntervalOutcome.thrown latest
  else
    IntervalOutcome.stopped latestIntervalLoadedImage numberOfImagesToLoad
termination_by numberOfImages - 1 - latestIntervalLoadedImage
decreasing_by omega

/-! Helper lemmas shared by several of the theorems below. -/

/-- Membership in the counting-loop list: j is iterated exactly when it
lies between the start value and the rational bound. -/
theorem mem_forUpTo (bound : ℚ) (i j : ℕ) :
    j ∈ forUpTo bound i ↔ i ≤ j ∧ (j : ℚ) < bound := by
  induction i using forUpTo.induct bound with
  | case1 i h ih =>
    rw [forUpTo, dif_pos h]
    simp only [List.mem_cons, ih]
    constructor
    · rintro (rfl | ⟨h1, h2⟩)
      · exact ⟨le_refl _, h⟩
      · exact ⟨by omega, h2⟩
    · rintro ⟨h1, h2⟩
      rcases eq_or_lt_of_le h1 with rfl | h3
      · exact Or.inl rfl
      · exact Or.inr ⟨by omega, h2⟩
  | case2 i h =>
    rw [forUpTo, dif_neg h]
    simp only [List.not_mem_nil, false_iff, not_and]
    intro hij hjb
    push_neg at h
    have hmono : (i : ℚ) ≤ (j : ℚ) := by exact_mod_cast hij
    linarith

/-- Promise.all resolves exactly when every member outcome resolved. -/
theorem promiseAll_ok_iff {ε α : Type} (l : List (Except ε α)) :
    (∃ v, promiseAll l = Except.ok v) ↔
      ∀ x ∈ l, ∃ a, x = Except.ok a := by
  induction l with
  | nil => simp [promiseAll]
  | cons x xs ih =>
    cases x with
    | error e => simp [promiseAll]
    | ok a =>
      cases hxs : promiseAll xs with
      | error e =>
        have hnone : ¬∃ v, promiseAll xs = Except.ok v := by simp [hxs]
        simp only [promiseAll, hxs, List.mem_cons]
        constructor
        · rintro ⟨v, hv⟩
          exact absurd hv (by simp)
        · intro hall
          exact absurd ((ih.mpr) fun x hx => hall x (Or.inr hx)) hnone
      | ok l =>
        have hxs2 : ∃ v, promiseAll xs = Except.ok v := ⟨l, hxs⟩
        simp only [promiseAll, hxs, List.mem_cons]
        constructor
        · intro _ x hx
          rcases hx with rfl | hx
          · exact ⟨a, rfl⟩
          · exact ih.mp hxs2 x hx
        · intro _
          exact ⟨a :: l, rfl⟩

/-- Concrete evaluation of the preload batch for ten images at the
default preLoadingPercentage of one quarter. -/
theorem preloadIndices_ten_quarter : preloadIndices 10 (1/4) = [0, 1, 2] := by
  rw [preloadIndices]
  rw [forUpTo]
  norm_num
  rw [forUpTo]
  norm_num
  rw [forUpTo]
  norm_num
  rw [forUpTo]
  norm_num

/-- Concrete evaluation of the forward look-ahead window after index 0
for ten images at the default forwardLoadingThreshold of one quarter. -/
theorem forwardLoadIndices_ten_quarter :
    forwardLoadIndices 10 (1/4) 0 = [1, 2] := by
  rw [forwardLoadIndices, getForwardLoadingUpperBound]
  rw [forUpTo]
  norm_num
  rw [forUpTo]
  norm_num
  rw [forUpTo]
  norm_num

/-- In exact arithmetic the viewport-height terms cancel and the final
if clamp of getRequestedImageIndex is a no-op, so the resolver computes
min(numImages - 1, floor(scrollTop / pxPerImg)).  This also holds for
pxPerImg = 0 because division by zero is zero in the rationals. -/
theorem getRequestedImageIndex_eq (s vh p : ℚ) (n : ℕ) :
    getRequestedImageIndex s vh p n = min ((n : ℤ) - 1) ⌊s / p⌋ := by
  have harg : (s + vh) / p - vh / p = s / p := by
    rw [div_sub_div_same, add_sub_cancel_right]
  simp only [getRequestedImageIndex, harg]
  have hm : min ((n : ℤ) - 1) ⌊s / p⌋ ≤ (n : ℤ) - 1 := min_le_left _ _
  split <;> omega

/-- C2, counterexample: at scrollOffset = -30, viewportHeight = 600,
pitch = 30, N = 10 the source resolver returns -1, which is outside
[0, N-1], while the formula of the claim, min(N-1, max(0, floor((offset
+ viewport) / pitch - viewport / pitch))), gives 0: the source never
applies a lower clamp. -/
theorem getRequestedImageIndex_negative_offset :
    getRequestedImageIndex (-30) 600 30 10 = -1 ∧
    min ((10 : ℤ) - 1)
        (max 0 ⌊((-30 : ℚ) + 600) / 30 - 600 / 30⌋) = 0 := by
  constructor
  · norm_num [getRequestedImageIndex]
  · norm_num

/-- C2, amended: the resolver returns min(N-1, floor((scrollOffset +
viewportHeight) / pitch - viewportHeight / pitch)) with no lower clamp;
the result never exceeds N-1, and it lies in [0, N-1] whenever the
scroll offset is nonnegative — but not for every negative offset. -/
theorem getRequestedImageIndex_upper_clamp_only (s vh p : ℚ) (n : ℕ)
    (hp : 0 < p) (hn : 1 ≤ n) :
    getRequestedImageIndex s vh p n
        = min ((n : ℤ) - 1) ⌊(s + vh) / p - vh / p⌋ ∧
    getRequestedImageIndex s vh p n ≤ (n : ℤ) - 1 ∧
    (0 ≤ s → 0 ≤ getRequestedImageIndex s vh p n) := by
  have harg : (s + vh) / p - vh / p = s / p := by
    rw [div_sub_div_same, add_sub_cancel_right]
  rw [harg, getRequestedImageIndex_eq]
  refine ⟨rfl, min_le_left _ _, fun hs => ?_⟩
  have h1 : (0 : ℚ) ≤ s / p := div_nonneg hs hp.le
  have h2 : (0 : ℤ) ≤ ⌊s / p⌋ := Int.floor_nonneg.mpr h1
  have h3 : (1 : ℤ) ≤ (n : ℤ) := by exact_mod_cast hn
  omega

/-- Witness for the amended C2 theorem at scrollOffset 0, viewport 600,
pitch 30, N = 10. -/
theorem getRequestedImageIndex_upper_clamp_only_witness :
    getRequestedImageIndex 0 600 30 10
        = min ((10 : ℤ) - 1) ⌊((0 : ℚ) + 600) / 30 - 600 / 30⌋ ∧
    getRequestedImageIndex 0 600 30 10 ≤ (10 : ℤ) - 1 ∧
    ((0 : ℚ) ≤ 0 → 0 ≤ getRequestedImageIndex 0 600 30 10) :=
  getRequestedImageIndex_upper_clamp_only 0 600 30 10 (by norm_num)
    (by norm_num)

/-- C9: for a fixed viewport height, pitch > 0 and catalog size, the
resolved frame index is monotonically non-decreasing in the scroll
offset. -/
theorem getRequestedImageIndex_monotone (a b vh p : ℚ) (n : ℕ)
    (hp : 0 < p) (hab : a ≤ b) :
    getRequestedImageIndex a vh p n ≤ getRequestedImageIndex b vh p n := by
  rw [getRequestedImageIndex_eq, getRequestedImageIndex_eq]
  have hdiv : a / p ≤ b / p := by gcongr
  exact min_le_min (le_refl _) (Int.floor_le_floor hdiv)

/-- Witness for C9 at offsets 0 and 90, viewport 600, pitch 30, N = 10. -/
theorem getRequestedImageIndex_monotone_witness :
    getRequestedImageIndex 0 600 30 10 ≤ getRequestedImageIndex 90 600 30 10 :=
  getRequestedImageIndex_monotone 0 90 600 30 10 (by norm_num) (by norm_num)

/-- C10: in exact arithmetic with pitch > 0 the viewport-height terms
cancel, so the resolver equals min(N-1, floor(scrollOffset / pitch)),
and the trailing if clamp never changes the value already produced by
the preceding Math.min (the resolver equals that min unchanged). -/
theorem getRequestedImageIndex_exact_simplification (s vh p : ℚ) (n : ℕ)
    (hp : 0 < p) :
    getRequestedImageIndex s vh p n = getRequestedImageIndexSpec s p n ∧
    getRequestedImageIndex s vh p n
        = min ((n : ℤ) - 1) ⌊(s + vh) / p - vh / p⌋ := by
  have harg : (s + vh) / p - vh / p = s / p := by
    rw [div_sub_div_same, add_sub_cancel_right]
  rw [harg, getRequestedImageIndex_eq]
  exact ⟨rfl, rfl⟩

/-- Witness for C10 at scrollOffset 45, viewport 600, pitch 30, N = 10. -/
theorem getRequestedImageIndex_exact_simplification_witness :
    getRequestedImageIndex 45 600 30 10 = getRequestedImageIndexSpec 45 30 10 ∧
    getRequestedImageIndex 45 600 30 10
        = min ((10 : ℤ) - 1) ⌊((45 : ℚ) + 600) / 30 - 600 / 30⌋ :=
  getRequestedImageIndex_exact_simplification 45 600 30 10 (by norm_num)

/-- C1, counterexample: starting from empty caches, a first fetch for
(low, 0) issues transport request 0 and, while it is still unresolved
(no load event has fired, so the cache is unchanged), a second fetch
for the same key issues a distinct transport request 1: two underlying
transport fetches in total, where the claim demands exactly one.  The
source keeps no registry of pending fetches, only of completed ones. -/
theorem loadImage_duplicate_transport_fetch :
    (loadImageStart ⟨fun _ => none, fun _ => none, 0⟩ 0 false false).1
        = LoadStart.fetching 0 ∧
    (loadImageStart
        (loadImageStart ⟨fun _ => none, fun _ => none, 0⟩ 0 false false).2
        0 false false).1 = LoadStart.fetching 1 ∧
    (loadImageStart
        (loadImageStart ⟨fun _ => none, fun _ => none, 0⟩ 0 false false).2
        0 false false).2.transportFetches = 2 :=
  ⟨rfl, rfl, rfl⟩

/-- C1, amended: loadImage deduplicates only against completed loads,
not in-flight ones.  A fetch for a key whose entry is already cached
issues no new transport fetch and resolves with the cached handle; a
fetch for a key with no cache entry always issues a fresh transport
fetch, so a second call made while the first is still unresolved issues
a second, duplicate transport fetch. -/
theorem loadImage_dedup_only_after_load (s t : CacheState) (index : ℕ)
    (img : ImageHandle)
    (hs : s.loadedImages index = some img)
    (ht : t.loadedImages index = none) :
    (loadImageStart s index false false).1 = LoadStart.resolved img ∧
    (loadImageStart s index false false).2.transportFetches
        = s.transportFetches ∧
    (loadImageStart t index false false).2.transportFetches
        = t.transportFetches + 1 ∧
    (loadImageStart (loadImageStart t index false false).2 index false
        false).2.transportFetches = t.transportFetches + 2 := by
  simp [loadImageStart, hs, ht]

/-- Witness for the amended C1 theorem: a cache holding image 7 at
index 5 resolves without a new transport fetch, and an empty cache
issues one transport fetch per call. -/
theorem loadImage_dedup_only_after_load_witness :
    (loadImageStart
        ⟨fun i => if i = 5 then some 7 else none, fun _ => none, 3⟩
        5 false false).1 = LoadStart.resolved 7 ∧
    (loadImageStart
        ⟨fun i => if i = 5 then some 7 else none, fun _ => none, 3⟩
        5 false false).2.transportFetches = 3 ∧
    (loadImageStart ⟨fun _ => none, fun _ => none, 0⟩ 5 false
        false).2.transportFetches = 1 ∧
    (loadImageStart
        (loadImageStart ⟨fun _ => none, fun _ => none, 0⟩ 5 false false).2
        5 false false).2.transportFetches = 2 :=
  loadImage_dedup_only_after_load
    ⟨fun i => if i = 5 then some 7 else none, fun _ => none, 3⟩
    ⟨fun _ => none, fun _ => none, 0⟩ 5 7 rfl rfl

/-- C7: a forward look-ahead pass for a just-displayed index passes to
loadImage (low tier) exactly the indices i with index + 1 ≤ i < ub,
where ub = min(index + N * forwardFraction, N); when the index is
already the last index N - 1 the range is empty and the pass is a
no-op. -/
theorem forwardLoad_index_range (n : ℕ) (f : ℚ) (idx j : ℕ) :
    (j ∈ forwardLoadIndices n f idx ↔
      idx + 1 ≤ j ∧ (j : ℚ) < getForwardLoadingUpperBound n f idx) ∧
    forwardLoadIndices n f (n - 1) = [] := by
  constructor
  · rw [forwardLoadIndices, mem_forUpTo]
  · rw [List.eq_nil_iff_forall_not_mem]
    intro j
    rw [forwardLoadIndices, mem_forUpTo]
    rintro ⟨h1, h2⟩
    rw [getForwardLoadingUpperBound] at h2
    have hub : min (((n - 1 : ℕ) : ℚ) + (n : ℚ) * f) (n : ℚ) ≤ (n : ℚ) :=
      min_le_right _ _
    have hj : (j : ℚ) < (n : ℚ) := lt_of_lt_of_le h2 hub
    have hj2 : j < n := by exact_mod_cast hj
    omega

/-- C8: the startup preload passes to loadImage (low tier) exactly the
indices i with i < N * preLoadingPercentage, and for N = 10 with
percentage 0.25 that list is [0, 1, 2]. -/
theorem preload_index_set (n : ℕ) (p : ℚ) (i : ℕ) :
    (i ∈ preloadIndices n p ↔ (i : ℚ) < (n : ℚ) * p) ∧
    preloadIndices 10 (1/4) = [0, 1, 2] := by
  constructor
  · rw [preloadIndices, mem_forUpTo]
    simp
  · exact preloadIndices_ten_quarter

/-- C4, counterexample: with N = 10 and preLoadingPercentage = 0.25 the
preload batch is the indices 0, 1, 2; when the fetch of index 1 fails
while the others succeed, the Promise.all of the preloader rejects, the
then-continuation in the constructor is skipped — even though the
initial high-resolution display load would succeed — so the controller
never arms the listeners, never enters Ready, and onComplete never
fires, where the claim says it still fires. -/
theorem preload_partial_failure_blocks_onComplete :
    onCompleteFired 10 (1/4)
        (fun i => if i = 1 then Except.error 0 else Except.ok i)
        (Except.ok 0) = false := by
  have h1 : preloaderResult 10 (1/4)
      (fun i => if i = 1 then Except.error 0 else Except.ok i)
      = Except.error 0 := by
    unfold preloaderResult
    rw [preloadIndices_ten_quarter]
    rfl
  unfold onCompleteFired
  rw [h1]

/-- C4, amended: onComplete fires exactly when every fetch of the
preload batch succeeds and the initial high-resolution display load
issued by setTheaterSize(true) then also succeeds.  Any failed preload
fetch makes the Promise.all of the preloader reject (fail-fast), and a
failed initial display load rejects the setTheaterSize promise; either
way the continuation that enters Ready and fires onComplete is skipped,
since neither then has a rejection handler. -/
theorem onComplete_iff_preloads_and_first_draw_succeed (n : ℕ) (p : ℚ)
    (outcome : ℕ → Except FetchError ImageHandle)
    (firstDisplayLoad : Except FetchError ImageHandle) :
    onCompleteFired n p outcome firstDisplayLoad = true ↔
      ((∀ i ∈ preloadIndices n p, ∃ img, outcome i = Except.ok img) ∧
       ∃ img, firstDisplayLoad = Except.ok img) := by
  have hiff : (∃ v, promiseAll ((preloadIndices n p).map outcome)
        = Except.ok v) ↔
      ∀ i ∈ preloadIndices n p, ∃ img, outcome i = Except.ok img := by
    rw [promiseAll_ok_iff]
    constructor
    · intro h i hi
      exact h (outcome i) (List.mem_map_of_mem _ hi)
    · intro h x hx
      rcases List.mem_map.mp hx with ⟨i, hi, rfl⟩
      exact h i hi
  rw [← hiff]
  unfold onCompleteFired preloaderResult
  rcases hres : promiseAll ((preloadIndices n p).map outcome) with e | v
  · simp [hres]
  · rcases hhd : firstDisplayLoad with e2 | v2
    · simp [hres, hhd]
    · simp [hres, hhd]

/-- C5, counterexample: a forward chain after index 0 (N = 10,
threshold 0.25) whose member fetches fail has fully settled — the
stored forward-chain future is the rejected outcome — yet
isFowardLoading is still true, because the continuation that clears the
flag is attached with then and runs only on resolution. -/
theorem isFowardLoading_stuck_on_chain_failure :
    (forwardLoadRun 10 (1/4) 0 (fun _ => Except.error 0)).1
        = Except.error 0 ∧
    (forwardLoadRun 10 (1/4) 0 (fun _ => Except.error 0)).2 = true := by
  unfold forwardLoadRun
  rw [forwardLoadIndices_ten_quarter]
  exact ⟨rfl, rfl⟩

/-- C5, amended: after a forward look-ahead chain settles, the
isFowardLoading flag is false exactly when the chain resolved
successfully; when any member fetch fails, the chain settles rejected
and the flag remains set. -/
theorem isFowardLoading_cleared_iff_chain_ok (n : ℕ) (f : ℚ) (idx : ℕ)
    (outcome : ℕ → Except FetchError ImageHandle) :
    (forwardLoadRun n f idx outcome).2 = false ↔
      ∃ imgs, (forwardLoadRun n f idx outcome).1 = Except.ok imgs := by
  unfold forwardLoadRun
  rcases hres : promiseAll ((forwardLoadIndices n f idx).map outcome)
    with e | v
  · simp [hres]
  · simp [hres]

/-- C3, code bug: for a 400 by 300 image on an 800 by 400 surface the
source computes the source rectangle (0, 75, 400, 150), whose aspect
ratio 400:150 = 8:3 differs from the surface aspect ratio 800:400 =
2:1, so drawImage stretches the cropped region vertically instead of
producing an aspect-preserving center-crop: line 216 computes
resizedImageHeight from imageWidth instead of imageHeight, though the
function documents itself as simulating background-size cover. -/
theorem drawOnCanvas_distorts_aspect :
    drawOnCanvas 800 400 400 300 = ⟨0, 75, 400, 150⟩ ∧
    ¬ (drawOnCanvas 800 400 400 300).sourceWidth * 400
        = (drawOnCanvas 800 400 400 300).sourceHeight * 800 := by
  have h : drawOnCanvas 800 400 400 300 = ⟨0, 75, 400, 150⟩ := by
    norm_num [drawOnCanvas, round_eq, min_def]
  refine ⟨h, ?_⟩
  rw [h]
  norm_num

/-- C6, code bug: with 3 images, a per-tick quota of 1, the background
cursor at 0 and index 1 already present in the low-tier cache, the
interval tick advances to index 1, loadImage rejects it as already
loaded, and the rejection handler throws "Unable to load 1" — the fill
loop aborts with an uncaught error instead of skipping the index
without counting it and continuing to index 2. -/
theorem intervalLoad_throws_on_already_loaded :
    intervalTick 3 (fun i => i == 1) (fun _ => true) 1 0
        = IntervalOutcome.thrown 1 := by
  rw [intervalTick]
  norm_num

end FrameByFrame
